import Mathlib

/-!
# Verification of the multi-provider AI request router
  (`src/server/services/ai-provider-manager.ts`)

Shallow embedding of `AIProviderManager`: provider configuration, per-provider
metrics, the retry executor (`executeWithRetry`), the per-provider request
queue (`queueRequest` / `processQueue`), the routing/selection algorithm
(`selectProvider`) and the fallback loop inside `chat` (`attemptWithProvider`).

JavaScript numbers are modelled as exact rationals (`ℚ`); token counts, which
the code only ever receives as non-negative integers from provider responses,
are modelled as `Nat`.  The wall clock (`Date.now()` / `toISOString()`) is
passed in as an explicit parameter.  Asynchronous effects (sleeps, provider
invocations, queue activity) are recorded in explicit traces.
-/

namespace AhuRouter

/-- Token usage reported by a provider response
(`ChatCompletionResponse.usage`). -/
structure Usage where
  inputTokens : Nat
  outputTokens : Nat
  totalTokens : Nat
deriving DecidableEq, Repr

/-- `ProviderConfig.costPer1kTokens` from `shared/schema`. -/
structure CostPer1k where
  input : ℚ
  output : ℚ
deriving DecidableEq, Repr

/-- The fields of `ProviderConfig` (from `shared/schema`) that the router
logic reads.  Transport material (api key, endpoint, model name, azure
fields) never influences routing, retries or metrics and is omitted. -/
structure ProviderConfig where
  name : String
  enabled : Bool
  priority : ℚ
  contextWindow : ℚ
  costPer1kTokens : Option CostPer1k
deriving DecidableEq, Repr

/-- `RoutingConfig` from `shared/schema`. -/
structure RoutingConfig where
  taskComplexityThreshold : ℚ
  contextSizeThreshold : ℚ
  rateLimitThreshold : ℚ
  enableFallback : Bool
deriving DecidableEq, Repr

/-- The default routing configuration installed by the
`AIProviderManager` constructor (lines 58–64). -/
def defaultRoutingConfig : RoutingConfig :=
  { taskComplexityThreshold := 0.7
    contextSizeThreshold := 90000
    rateLimitThreshold := 0.2
    enableFallback := true }

/-- Error classification key: `error.status || error.code || "unknown"`
(line 246) yields either a number or a string. -/
inductive ErrCode where
  | num (n : Nat)
  | str (s : String)
deriving DecidableEq, Repr

/-- A JavaScript error as inspected by `executeWithRetry`:
`status`, `code`, the optional parsed `Retry-After` header (seconds), and
the message. -/
structure JsError where
  status : Option Nat
  code : Option String
  retryAfterSecs : Option Nat
  message : String
deriving DecidableEq, Repr

/-- `error.status || error.code || "unknown"` (line 246).  JavaScript `||`
skips falsy values, so a `0` status or an empty-string code falls through. -/
def classify (e : JsError) : ErrCode :=
  match e.status with
  | some n => if n ≠ 0 then .num n else
      match e.code with
      | some s => if s ≠ "" then .str s else .str "unknown"
      | none => .str "unknown"
  | none =>
      match e.code with
      | some s => if s ≠ "" then .str s else .str "unknown"
      | none => .str "unknown"

/-- `ProviderMetrics` from `shared/schema` (the mutable per-provider record).
`errorCounts` (a JS object keyed by error classification) is an association
list in insertion order. -/
structure ProviderMetrics where
  providerName : String
  totalRequests : Nat
  successfulRequests : Nat
  failedRequests : Nat
  totalTokensUsed : Nat
  totalInputTokens : Nat
  totalOutputTokens : Nat
  averageResponseTime : ℚ
  totalCost : ℚ
  lastUsed : Option String
  rateLimitRemaining : Option ℚ
  errorCounts : List (ErrCode × Nat)
deriving DecidableEq, Repr

/-- The zeroed metrics record installed by `initializeProvider`
(lines 111–125). -/
def initMetrics (name : String) : ProviderMetrics :=
  { providerName := name
    totalRequests := 0
    successfulRequests := 0
    failedRequests := 0
    totalTokensUsed := 0
    totalInputTokens := 0
    totalOutputTokens := 0
    averageResponseTime := 0
    totalCost := 0
    lastUsed := none
    rateLimitRemaining := none
    errorCounts := [] }

/-- `if (!errorCounts[code]) errorCounts[code] = 0; errorCounts[code]++`
(lines 248–251). -/
def bumpErrorCount (code : ErrCode) : List (ErrCode × Nat) → List (ErrCode × Nat)
  | [] => [(code, 1)]
  | (c, k) :: rest =>
      if c = code then (c, k + 1) :: rest else (c, k) :: bumpErrorCount code rest

/-- Read an error classification's occurrence count (missing key = 0). -/
def errCount (code : ErrCode) : List (ErrCode × Nat) → Nat
  | [] => 0
  | (c, k) :: rest => if c = code then k else errCount code rest

/-- `recordError`: the `errorCounts` bump performed inside the catch of
`executeWithRetry` (lines 248–251), applied to the whole metrics record. -/
def recordError (m : ProviderMetrics) (code : ErrCode) : ProviderMetrics :=
  { m with errorCounts := bumpErrorCount code m.errorCounts }

/-- `updateMetrics(providerName, success, responseTime, usage?)`
(lines 330–374): bumps the request counters, token and cost accumulators,
recomputes the running average latency and stamps `lastUsed`.
`now` stands for `new Date().toISOString()`. -/
def updateMetrics (cfg : ProviderConfig) (m : ProviderMetrics) (success : Bool)
    (responseTime : ℚ) (usage : Option Usage) (now : String) : ProviderMetrics :=
  let totalRequests := m.totalRequests + 1
  let successfulRequests :=
    if success then m.successfulRequests + 1 else m.successfulRequests
  let failedRequests :=
    if success then m.failedRequests else m.failedRequests + 1
  let totalInputTokens :=
    match usage with
    | some u => m.totalInputTokens + u.inputTokens
    | none => m.totalInputTokens
  let totalOutputTokens :=
    match usage with
    | some u => m.totalOutputTokens + u.outputTokens
    | none => m.totalOutputTokens
  let totalTokensUsed :=
    match usage with
    | some u => m.totalTokensUsed + u.totalTokens
    | none => m.totalTokensUsed
  let totalCost :=
    match usage, cfg.costPer1kTokens with
    | some u, some cost =>
        m.totalCost + ((u.inputTokens : ℚ) / 1000) * cost.input
          + ((u.outputTokens : ℚ) / 1000) * cost.output
    | _, _ => m.totalCost
  let totalResponseTimes :=
    m.averageResponseTime * ((totalRequests : ℚ) - 1) + responseTime
  { m with
    totalRequests := totalRequests
    successfulRequests := successfulRequests
    failedRequests := failedRequests
    totalInputTokens := totalInputTokens
    totalOutputTokens := totalOutputTokens
    totalTokensUsed := totalTokensUsed
    totalCost := totalCost
    averageResponseTime := totalResponseTimes / (totalRequests : ℚ)
    lastUsed := some now }

/-- A provider response (`callProviderAPI`'s result, sans provider tag). -/
structure Resp where
  content : String
  model : String
  usage : Option Usage
  finishReason : Option String
deriving DecidableEq, Repr

instance {ε α : Type} [DecidableEq ε] [DecidableEq α] : DecidableEq (Except ε α)
  | .ok a, .ok b =>
      if h : a = b then .isTrue (by rw [h]) else .isFalse (by simp [h])
  | .ok _, .error _ => .isFalse (by simp)
  | .error _, .ok _ => .isFalse (by simp)
  | .error a, .error b =>
      if h : a = b then .isTrue (by rw [h]) else .isFalse (by simp [h])

/-- Outcome record of one `executeWithRetry` run: the final result, how many
times `fn` was invoked, the sleeps performed (ms, in order) and the
`errorCounts` bumps performed (in order). -/
structure RetryOutcome (α : Type) where
  result : Except JsError α
  calls : Nat
  delays : List ℚ
  errors : List ErrCode
deriving DecidableEq

/-- One loop iteration step of `executeWithRetry` (lines 240–279), recursing
on the number of remaining iterations; `attempt` is the loop index.  `fn i`
is the outcome of the `i`-th invocation of the retried closure.  Each error
first bumps `errorCounts`, then is classified:
* 429: sleep `Retry-After * 1000` if the header is present, else
  `baseDelay * 2^attempt`, and continue — unless this was the last attempt;
* 504 / `"ETIMEDOUT"`: sleep `min (baseDelay * 2^attempt) 120000` and
  continue — unless this was the last attempt;
* 400: rethrow immediately;
* 503 / `"ECONNREFUSED"`: sleep `baseDelay * 2^attempt` and continue —
  unless this was the last attempt;
* anything else (and every exhausted case above): rethrow. -/
def executeWithRetryGo {α : Type} (fn : Nat → Except JsError α)
    (maxAttempts : Nat) (baseDelay : ℚ) :
    Nat → Nat → List ℚ → List ErrCode → RetryOutcome α
  | _, 0, delays, errors =>
      -- loop fell through: `throw lastError || Error("Max retry attempts reached")`;
      -- reachable only when maxAttempts = 0, where lastError is still null
      { result := .error { status := none, code := none, retryAfterSecs := none
                           message := "Max retry attempts reached" }
        calls := 0, delays := delays, errors := errors }
  | attempt, remaining + 1, delays, errors =>
      match fn attempt with
      | .ok v =>
          { result := .ok v, calls := attempt + 1, delays := delays, errors := errors }
      | .error e =>
          let errors := errors ++ [classify e]
          let halt : RetryOutcome α :=
            { result := .error e, calls := attempt + 1, delays := delays, errors := errors }
          match classify e with
          | .num 429 =>
              let retryAfter :=
                match e.retryAfterSecs with
                | some s => (s : ℚ) * 1000
                | none => baseDelay * 2 ^ attempt
              if attempt < maxAttempts - 1 then
                executeWithRetryGo fn maxAttempts baseDelay (attempt + 1) remaining
                  (delays ++ [retryAfter]) errors
              else halt
          | .num 504 =>
              if attempt < maxAttempts - 1 then
                executeWithRetryGo fn maxAttempts baseDelay (attempt + 1) remaining
                  (delays ++ [min (baseDelay * 2 ^ attempt) 120000]) errors
              else halt
          | .str "ETIMEDOUT" =>
              if attempt < maxAttempts - 1 then
                executeWithRetryGo fn maxAttempts baseDelay (attempt + 1) remaining
                  (delays ++ [min (baseDelay * 2 ^ attempt) 120000]) errors
              else halt
          | .num 400 => halt
          | .num 503 =>
              if attempt < maxAttempts - 1 then
                executeWithRetryGo fn maxAttempts baseDelay (attempt + 1) remaining
                  (delays ++ [baseDelay * 2 ^ attempt]) errors
              else halt
          | .str "ECONNREFUSED" =>
              if attempt < maxAttempts - 1 then
                executeWithRetryGo fn maxAttempts baseDelay (attempt + 1) remaining
                  (delays ++ [baseDelay * 2 ^ attempt]) errors
              else halt
          | _ => halt

/-- `executeWithRetry(providerName, fn, maxAttempts = 3, baseDelay = 1000)`
(lines 227–283), with the provider lookup factored out (the caller passes the
metrics record; the `errorCounts` bumps are reported in `.errors`). -/
def executeWithRetry {α : Type} (fn : Nat → Except JsError α)
    (maxAttempts : Nat := 3) (baseDelay : ℚ := 1000) : RetryOutcome α :=
  executeWithRetryGo fn maxAttempts baseDelay 0 maxAttempts [] []

/-- `const timeout = context.timeout || 120000` (line 407): the effective
timeout raced against the provider call; JavaScript `||` treats a 0 timeout
as absent. -/
def effectiveTimeout (contextTimeout : Option ℚ) : ℚ :=
  match contextTimeout with
  | some t => if t ≠ 0 then t else 120000
  | none => 120000

/-- The error constructed by the timeout branch of the race (line 409):
`new Error("Request timeout")` — a bare `Error`, carrying neither a `status`
nor a `code` property. -/
def timeoutError : JsError :=
  { status := none, code := none, retryAfterSecs := none
    message := "Request timeout" }

/-! ## Per-provider queue (`queueRequest` / `processQueue`, lines 285–328)

Queue items are labelled abstractly; the drain loop's behaviour is recorded
as a trace of events. -/

/-- An observable event of the per-provider queue machinery. -/
inductive QEv (α : Type) where
  | enqueued (item : α)
  | ran (item : α)
  | paced (ms : ℚ)
deriving DecidableEq, Repr

/-- The trace of one `processQueue` drain over a queue snapshot
(lines 314–325): `shift` the head, run it, then
`await new Promise(resolve => setTimeout(resolve, 100))` — a 100 ms pacing
sleep after every processed item — until the queue is empty. -/
def processQueueTrace {α : Type} : List α → List (QEv α)
  | [] => []
  | item :: rest => .ran item :: .paced 100 :: processQueueTrace rest

/-- `queueRequest(providerName, fn)` (lines 285–306): push `fn` onto the
provider's FIFO `requestQueue`, then trigger `processQueue`.  Modelled on the
queue snapshot: returns the new queue and the enqueue event. -/
def queueRequest {α : Type} (queue : List α) (item : α) : List α × QEv α :=
  (queue ++ [item], .enqueued item)

/-! ## Router (`selectProvider`, lines 153–225) -/

/-- One registry entry as seen by the router: the provider name (Map key),
its configuration and its current metrics, in Map insertion order. -/
structure PEntry where
  name : String
  cfg : ProviderConfig
  metrics : ProviderMetrics
deriving DecidableEq, Repr

/-- `1 - rateLimitRemaining` when known, else 0 (lines 174–177). -/
def rateLimitUsage (m : ProviderMetrics) : ℚ :=
  match m.rateLimitRemaining with
  | some r => 1 - r
  | none => 0

/-- The eligibility filter (lines 170–183): enabled, the context-size
estimate fits the context window, and the rate-limit usage does not exceed
`1 - rateLimitThreshold`. -/
def isEligible (rc : RoutingConfig) (contextSize : ℚ) (p : PEntry) : Bool :=
  p.cfg.enabled && decide (contextSize ≤ p.cfg.contextWindow)
    && decide (rateLimitUsage p.metrics ≤ 1 - rc.rateLimitThreshold)

/-- `successfulRequests / totalRequests`, or 1 when no requests were made
(lines 204–211). -/
def successRate (m : ProviderMetrics) : ℚ :=
  if m.totalRequests > 0 then (m.successfulRequests : ℚ) / (m.totalRequests : ℚ) else 1

/-- The per-side score accumulated by the comparator before the latency term
(lines 188–214): complexity bonus, context-size bonus, priority, and twice
the success rate. -/
def baseScore (rc : RoutingConfig) (taskComplexity contextSize : ℚ) (p : PEntry) : ℚ :=
  (if taskComplexity ≥ rc.taskComplexityThreshold ∧ p.cfg.contextWindow > 150000
    then 2 else 0)
  + (if contextSize ≥ rc.contextSizeThreshold ∧ p.cfg.contextWindow > 150000
    then 3 else 0)
  + p.cfg.priority
  + successRate p.metrics * 2

/-- `baseScore` plus the latency term `(1 / averageResponseTime) * 0.5`
(unconditionally). -/
def fullScore (rc : RoutingConfig) (taskComplexity contextSize : ℚ) (p : PEntry) : ℚ :=
  baseScore rc taskComplexity contextSize p
    + (1 / p.metrics.averageResponseTime) * 0.5

/-- The sort comparator of lines 184–221, returning `bScore - aScore`.  The
latency terms are added only when **both** compared candidates have a
positive `averageResponseTime` (line 216). -/
def cmpJS (rc : RoutingConfig) (taskComplexity contextSize : ℚ) (a b : PEntry) : ℚ :=
  if a.metrics.averageResponseTime > 0 ∧ b.metrics.averageResponseTime > 0 then
    fullScore rc taskComplexity contextSize b - fullScore rc taskComplexity contextSize a
  else
    baseScore rc taskComplexity contextSize b - baseScore rc taskComplexity contextSize a

/-- Head of the stable sort by `cmpJS` (line 224 takes `[0]` of the sorted
array): a later candidate displaces the running best exactly when the
comparator orders it strictly earlier (`cmpJS best x > 0`); on comparator
ties the earlier (registry-order) candidate is kept, as a stable sort
does. -/
def sortHead (rc : RoutingConfig) (taskComplexity contextSize : ℚ)
    (l : List PEntry) : Option PEntry :=
  l.foldl
    (fun best x =>
      match best with
      | none => some x
      | some c => if cmpJS rc taskComplexity contextSize c x > 0 then some x else some c)
    none

/-- `selectProvider(request, context)` (lines 153–225), with the
context-size estimate and task complexity already resolved (lines 157–160
defaulting them from the message text).  The preferred-provider branch
(lines 162–167) bypasses filtering and scoring. -/
def selectProvider (reg : List PEntry) (rc : RoutingConfig)
    (taskComplexity contextSize : ℚ) (preferredProvider : Option String) :
    Option String :=
  let preferred :=
    match preferredProvider with
    | some pref =>
        match reg.find? (fun p : PEntry => p.name = pref) with
        | some p =>
            if p.cfg.enabled ∧ contextSize ≤ p.cfg.contextWindow then some p.name
            else none
        | none => none
    | none => none
  match preferred with
  | some name => some name
  | none =>
      (sortHead rc taskComplexity contextSize
        (reg.filter (isEligible rc contextSize))).map (fun p : PEntry => p.name)

/-! ## Fallback chain (`chat` / `attemptWithProvider`, lines 383–457) -/

/-- A `ProviderInstance` (lines 41–47): configuration, metrics and the
per-provider request queue (queued closures are labelled by `Nat`).  The
transport client is irrelevant to routing and omitted. -/
structure PInst where
  name : String
  cfg : ProviderConfig
  metrics : ProviderMetrics
  requestQueue : List Nat
  isProcessingQueue : Bool
deriving DecidableEq, Repr

/-- A freshly initialized `ProviderInstance` (lines 108–128). -/
def initInst (cfg : ProviderConfig) : PInst :=
  { name := cfg.name, cfg := cfg, metrics := initMetrics cfg.name
    requestQueue := [], isProcessingQueue := false }

/-- `this.providers.get(name)` over the insertion-ordered instance list. -/
def lookupInst (insts : List PInst) (name : String) : Option PInst :=
  insts.find? (fun i => i.name = name)

/-- Replace the metrics of the named provider in place. -/
def mapMetrics (insts : List PInst) (name : String)
    (f : ProviderMetrics → ProviderMetrics) : List PInst :=
  insts.map (fun i => if i.name = name then { i with metrics := f i.metrics } else i)

/-- View a `ProviderInstance` through the router's eyes. -/
def toPEntry (i : PInst) : PEntry :=
  { name := i.name, cfg := i.cfg, metrics := i.metrics }

/-- An observable event of one logical `chat` call: an invocation of the
retried provider-call closure (line 242 calling the closure built at
lines 406–418), or a retry back-off sleep. -/
inductive ChatEv where
  | providerCall (name : String) (attempt : Nat)
  | slept (ms : ℚ)
deriving DecidableEq, Repr

/-- Interleave the call and sleep events of one `executeWithRetry` run:
calls are numbered `0, …, calls-1` and the `i`-th back-off sleep follows
the `i`-th call. -/
def callEvents (name : String) (calls : Nat) (delays : List ℚ) : List ChatEv :=
  (List.range calls).flatMap (fun i =>
    ChatEv.providerCall name i ::
      (match delays[i]? with | some d => [ChatEv.slept d] | none => []))

/-- Result of one logical `chat` call. -/
inductive ChatOutcome where
  | ok (provider : String) (resp : Resp)
  | err (e : JsError)
  | diverged
deriving DecidableEq, Repr

/-- Full observation of one logical `chat` call: outcome, final provider
instances, providers attempted in order, and the event trace. -/
structure ChatRes where
  outcome : ChatOutcome
  insts : List PInst
  attempted : List String
  events : List ChatEv
deriving DecidableEq, Repr

/-- `new Error("Provider ${name} not found")` (line 398). -/
def providerNotFoundError (name : String) : JsError :=
  { status := none, code := none, retryAfterSecs := none
    message := "Provider " ++ name ++ " not found" }

/-- `new Error("No eligible provider found for this request")` (line 390). -/
def noEligibleProviderError : JsError :=
  { status := none, code := none, retryAfterSecs := none
    message := "No eligible provider found for this request" }

/-- `attemptWithProvider(providerName)` (lines 393–454).  `behavior name i`
is the outcome of the `i`-th invocation of the retried closure against
provider `name` (an abstraction of `callProviderAPI` raced against the
timeout); `rt` is the measured wall-clock latency, `now` the clock reading.
Recursion is bounded by `fuel` because the source recursion (line 448) has
no termination guarantee; `.diverged` marks fuel exhaustion.

On failure of the whole retried call the code updates metrics **without**
usage (line 434) and then — whenever fallback is enabled and more than one
provider is registered — re-enters itself on the first *other* enabled
provider (lines 436–449); no record is kept of providers already tried. -/
def attemptWithProvider (rc : RoutingConfig)
    (behavior : String → Nat → Except JsError Resp) (rt : ℚ) (now : String) :
    Nat → List PInst → List String → List ChatEv → String → ChatRes
  | 0, insts, attempted, events, _ =>
      { outcome := .diverged, insts := insts, attempted := attempted, events := events }
  | fuel + 1, insts, attempted, events, name =>
      let attempted := attempted ++ [name]
      match lookupInst insts name with
      | none =>
          { outcome := .err (providerNotFoundError name), insts := insts
            attempted := attempted, events := events }
      | some inst =>
          let r := executeWithRetry (behavior name) 3 1000
          let events := events ++ callEvents name r.calls r.delays
          let insts := mapMetrics insts name (fun m => r.errors.foldl recordError m)
          match r.result with
          | .ok resp =>
              { outcome := .ok name resp
                insts := mapMetrics insts name
                  (fun m => updateMetrics inst.cfg m true rt resp.usage now)
                attempted := attempted, events := events }
          | .error e =>
              let insts := mapMetrics insts name
                (fun m => updateMetrics inst.cfg m false rt none now)
              if rc.enableFallback ∧ insts.length > 1 then
                match (insts.filter (fun i => i.name ≠ name ∧ i.cfg.enabled)).head? with
                | some nxt =>
                    attemptWithProvider rc behavior rt now fuel insts attempted events nxt.name
                | none =>
                    { outcome := .err e, insts := insts
                      attempted := attempted, events := events }
              else
                { outcome := .err e, insts := insts
                  attempted := attempted, events := events }

/-- `chat(request, context)` (lines 383–457): route via `selectProvider`,
then run the fallback loop from the selected provider. -/
def chat (rc : RoutingConfig) (behavior : String → Nat → Except JsError Resp)
    (rt : ℚ) (now : String) (fuel : Nat) (insts : List PInst)
    (taskComplexity contextSize : ℚ) (preferredProvider : Option String) : ChatRes :=
  match selectProvider (insts.map toPEntry) rc taskComplexity contextSize
      preferredProvider with
  | none =>
      { outcome := .err noEligibleProviderError, insts := insts
        attempted := [], events := [] }
  | some name => attemptWithProvider rc behavior rt now fuel insts [] [] name

/-! ## Concrete scenarios -/

/-- Provider `alpha`: enabled, priority 2, 128k context window. -/
def cfgAlpha : ProviderConfig :=
  { name := "alpha", enabled := true, priority := 2, contextWindow := 128000
    costPer1kTokens := none }

/-- Provider `beta`: enabled, priority 1, 128k context window. -/
def cfgBeta : ProviderConfig :=
  { name := "beta", enabled := true, priority := 1, contextWindow := 128000
    costPer1kTokens := none }

/-- An HTTP 503 failure. -/
def err503 : JsError :=
  { status := some 503, code := none, retryAfterSecs := none
    message := "Service Unavailable" }

/-- An HTTP 400 failure. -/
def err400 : JsError :=
  { status := some 400, code := none, retryAfterSecs := none
    message := "Bad Request" }

/-- A transport-level timeout carrying the Node `ETIMEDOUT` code. -/
def errTimedOut : JsError :=
  { status := none, code := some "ETIMEDOUT", retryAfterSecs := none
    message := "socket hang up" }

/-- A successful completion reporting 1000 input / 500 output tokens. -/
def respOk : Resp :=
  { content := "ok", model := "m", usage := some ⟨1000, 500, 1500⟩
    finishReason := some "stop" }

/-- Every provider fails every attempt with HTTP 503. -/
def alwaysFail503 : String → Nat → Except JsError Resp :=
  fun _ _ => .error err503

/-- `alpha` rejects every attempt with HTTP 400; `beta` succeeds. -/
def alphaRejects400 : String → Nat → Except JsError Resp :=
  fun name _ => if name = "alpha" then .error err400 else .ok respOk

/-- `beta` succeeds on the first attempt (single-provider scenario). -/
def betaSucceeds : String → Nat → Except JsError Resp :=
  fun _ _ => .ok respOk

/-- The candidate-set membership test exactly as the claim words it (for
comparison with the code's `isEligible`): enabled, context window covers the
estimate, and the rate-limit-remaining fraction — defaulting to 1.0 when
unknown — is at least `1 − rateLimitThreshold`. -/
def claimEligible (rc : RoutingConfig) (contextSize : ℚ) (p : PEntry) : Bool :=
  p.cfg.enabled && decide (contextSize ≤ p.cfg.contextWindow)
    && decide
      ((match p.metrics.rateLimitRemaining with | some r => r | none => 1)
        ≥ 1 - rc.rateLimitThreshold)

/-- The per-candidate score exactly as the claim words it (for comparison
with the code's pairwise comparator): the latency term is dropped precisely
when *this* candidate's average latency is 0. -/
def claimScore (rc : RoutingConfig) (taskComplexity contextSize : ℚ)
    (p : PEntry) : ℚ :=
  baseScore rc taskComplexity contextSize p
    + (if p.metrics.averageResponseTime = 0 then 0
      else (1 / p.metrics.averageResponseTime) * 0.5)

/-- `gamma`: an enabled provider whose last-known rate-limit-remaining
fraction is 0.5. -/
def pHalf : PEntry :=
  { name := "gamma"
    cfg := { name := "gamma", enabled := true, priority := 1
             contextWindow := 100000, costPer1kTokens := none }
    metrics := { initMetrics "gamma" with rateLimitRemaining := some (1/2) } }

/-- `delta`: an enabled provider that has never been called (average latency
0, no requests). -/
def candFresh : PEntry :=
  { name := "delta"
    cfg := { name := "delta", enabled := true, priority := 1
             contextWindow := 100000, costPer1kTokens := none }
    metrics := initMetrics "delta" }

/-- `epsilon`: an enabled provider with one successful call of latency
100 ms. -/
def candSeasoned : PEntry :=
  { name := "epsilon"
    cfg := { name := "epsilon", enabled := true, priority := 1
             contextWindow := 100000, costPer1kTokens := none }
    metrics := { initMetrics "epsilon" with
                 totalRequests := 1, successfulRequests := 1
                 averageResponseTime := 100 } }

/-- Provider `alpha` with declared cost-per-1000-tokens
`{input: 0.01, output: 0.03}`. -/
def cfgPriced : ProviderConfig :=
  { name := "alpha", enabled := true, priority := 2, contextWindow := 128000
    costPer1kTokens := some { input := 0.01, output := 0.03 } }

/-- The two kinds of mutation ever applied to a provider's metrics record
while the provider exists: the per-terminal-outcome `updateMetrics` call
(lines 426/434) and the per-retry-attempt `errorCounts` bump inside
`executeWithRetry` (lines 248–251). -/
inductive MetricsOp where
  | recordAttempt (success : Bool) (responseTime : ℚ) (usage : Option Usage)
      (now : String)
  | bumpError (code : ErrCode)

/-- Apply one metrics mutation. -/
def applyOp (cfg : ProviderConfig) (m : ProviderMetrics) : MetricsOp → ProviderMetrics
  | .recordAttempt success responseTime usage now =>
      updateMetrics cfg m success responseTime usage now
  | .bumpError code => recordError m code

/-- Apply a sequence of metrics mutations in order. -/
def applyOps (cfg : ProviderConfig) (m : ProviderMetrics)
    (ops : List MetricsOp) : ProviderMetrics :=
  ops.foldl (applyOp cfg) m

/-- The configured costs-per-1000-tokens, when declared, are non-negative
(true of any real price sheet; the schema supplies defaults 0.01/0.03). -/
def costsNonneg (cfg : ProviderConfig) : Prop :=
  match cfg.costPer1kTokens with
  | some c => 0 ≤ c.input ∧ 0 ≤ c.output
  | none => True

/-- Project the item out of a `ran` queue event. -/
def ranItem {α : Type} : QEv α → Option α
  | .ran x => some x
  | _ => none

/-- Is this event a 100 ms pacing sleep? -/
def isPace100 {α : Type} : QEv α → Bool
  | .paced ms => ms = 100
  | _ => false

/-- The two scenario provider names differ. -/
theorem beta_ne_alpha : ("beta" : String) ≠ "alpha" := by decide

/-- The two scenario provider names differ. -/
theorem alpha_ne_beta : ("alpha" : String) ≠ "beta" := by decide

/-- `alwaysFail503` at any provider is the constant-503 closure. -/
theorem alwaysFail503_app (name : String) :
    alwaysFail503 name = fun _ => Except.error err503 := rfl

/-- Three 503 attempts exhaust the retry budget: two exponential back-off
sleeps, three `errorCounts` bumps, and the final error propagates. -/
theorem executeWithRetry_const503 :
    executeWithRetry (fun _ => (Except.error err503 : Except JsError Resp)) 3 1000 =
      { result := .error err503, calls := 3, delays := [1000, 2000]
        errors := [.num 503, .num 503, .num 503] } := by
  simp [executeWithRetry, executeWithRetryGo, classify, err503]
  norm_num

/-- With two enabled providers that fail every attempt, the fallback loop of
`chat` bounces between them forever: from either entry point, every fuel
bound is exhausted, whatever the current metrics, queues and accumulators
are. -/
theorem cycle_alpha_beta (rt : ℚ) (now : String) :
    ∀ (fuel : Nat) (m1 m2 : ProviderMetrics) (q1 q2 : List Nat) (b1 b2 : Bool)
      (attempted : List String) (events : List ChatEv),
      (attemptWithProvider defaultRoutingConfig alwaysFail503 rt now fuel
        [⟨"alpha", cfgAlpha, m1, q1, b1⟩, ⟨"beta", cfgBeta, m2, q2, b2⟩]
        attempted events "alpha").outcome = .diverged
    ∧ (attemptWithProvider defaultRoutingConfig alwaysFail503 rt now fuel
        [⟨"alpha", cfgAlpha, m1, q1, b1⟩, ⟨"beta", cfgBeta, m2, q2, b2⟩]
        attempted events "beta").outcome = .diverged := by
  intro fuel
  induction fuel with
  | zero => intro _ _ _ _ _ _ _ _; exact ⟨rfl, rfl⟩
  | succ n ih =>
    intro m1 m2 q1 q2 b1 b2 attempted events
    constructor
    · simp [attemptWithProvider, lookupInst, mapMetrics, alwaysFail503,
        executeWithRetry_const503, cfgAlpha, cfgBeta, defaultRoutingConfig]
      exact (ih _ _ _ _ _ _ _ _).2
    · simp [attemptWithProvider, lookupInst, mapMetrics, alwaysFail503,
        executeWithRetry_const503, cfgAlpha, cfgBeta, defaultRoutingConfig]
      exact (ih _ _ _ _ _ _ _ _).1

/-- Routing over the fresh `alpha`/`beta` registry picks `alpha` (higher
priority, neither bonus applies, equal fresh success rates). -/
theorem selectProvider_alphaBeta :
    selectProvider ([initInst cfgAlpha, initInst cfgBeta].map toPEntry)
      defaultRoutingConfig 0 10 none = some "alpha" := by
  norm_num [selectProvider, sortHead, isEligible, rateLimitUsage, cmpJS,
    baseScore, fullScore, successRate, cfgAlpha, cfgBeta, defaultRoutingConfig,
    initInst, initMetrics, toPEntry, List.filter]

/-- C1.  The claim says the set of providers attempted by one logical
`chat` call never contains duplicates (a visited-set excludes already-tried
providers) and that once every provider failed the call ends with an
`AllProvidersExhaustedError` listing the attempts.  The code has no
visited-set: with two enabled providers `alpha`, `beta` that fail every
attempt with HTTP 503, the fallback loop re-attempts `alpha` after `beta`
(`["alpha", "beta", "alpha"]` within fuel 3 — a duplicate), and for *every*
fuel bound the call is still running (no terminal "all providers exhausted"
outcome is ever produced; the recursion of lines 436–449 never
terminates). -/
theorem chat_fallback_revisits_providers_and_never_exhausts :
    (chat defaultRoutingConfig alwaysFail503 7 "t" 3
        [initInst cfgAlpha, initInst cfgBeta] 0 10 none).attempted
      = ["alpha", "beta", "alpha"]
  ∧ ¬ (chat defaultRoutingConfig alwaysFail503 7 "t" 3
        [initInst cfgAlpha, initInst cfgBeta] 0 10 none).attempted.Nodup
  ∧ ∀ fuel : Nat,
      (chat defaultRoutingConfig alwaysFail503 7 "t" fuel
        [initInst cfgAlpha, initInst cfgBeta] 0 10 none).outcome = .diverged := by
  refine ⟨?_, ?_, ?_⟩
  · show (chat _ _ _ _ _ _ _ _ _).attempted = _
    rw [chat, selectProvider_alphaBeta]
    norm_num [attemptWithProvider, lookupInst, mapMetrics, alwaysFail503_app,
      executeWithRetry_const503, cfgAlpha, cfgBeta, defaultRoutingConfig,
      initInst, initMetrics, beta_ne_alpha, alpha_ne_beta]
  · show ¬ (chat _ _ _ _ _ _ _ _ _).attempted.Nodup
    rw [chat, selectProvider_alphaBeta]
    norm_num [attemptWithProvider, lookupInst, mapMetrics, alwaysFail503_app,
      executeWithRetry_const503, cfgAlpha, cfgBeta, defaultRoutingConfig,
      initInst, initMetrics, beta_ne_alpha, alpha_ne_beta, List.Nodup]
  · intro fuel
    rw [chat, selectProvider_alphaBeta]
    exact (cycle_alpha_beta 7 "t" fuel (initMetrics "alpha") (initMetrics "beta")
      [] [] false false [] []).1

/-- C4.  The claim says a timed-out provider call is classified identically
to an HTTP 504 transient failure and retried (up to 3 attempts, delay
`min(1000·2^i, 120000)`).  The default 120000 ms timeout (part 1) does hold,
and an error that *carries* the `ETIMEDOUT` code is indeed retried that way
(part 4) — but the error the race actually constructs on timeout,
`new Error("Request timeout")` (line 409), carries neither `status` nor
`code`, so `executeWithRetry` classifies it `"unknown"` (part 2) and
rethrows it after a single attempt with no retry and no back-off sleep
(part 3). -/
theorem timeout_not_retried :
    effectiveTimeout none = 120000
  ∧ classify timeoutError = .str "unknown"
  ∧ executeWithRetry (fun _ => (Except.error timeoutError : Except JsError Resp))
      3 1000 =
      { result := .error timeoutError, calls := 1, delays := []
        errors := [.str "unknown"] }
  ∧ executeWithRetry (fun _ => (Except.error errTimedOut : Except JsError Resp))
      3 1000 =
      { result := .error errTimedOut, calls := 3, delays := [1000, 2000]
        errors := [.str "ETIMEDOUT", .str "ETIMEDOUT", .str "ETIMEDOUT"] } := by
  refine ⟨rfl, rfl, ?_, ?_⟩
  · simp [executeWithRetry, executeWithRetryGo, classify, timeoutError]
  · simp [executeWithRetry, executeWithRetryGo, classify, errTimedOut]
    norm_num

/-- `alphaRejects400` at `alpha` is the constant-400 closure. -/
theorem alphaRejects400_alpha :
    alphaRejects400 "alpha" = fun _ => Except.error err400 := by
  funext i; simp [alphaRejects400]

/-- `alphaRejects400` at `beta` is the constant-success closure. -/
theorem alphaRejects400_beta :
    alphaRejects400 "beta" = fun _ => Except.ok respOk := by
  funext i; simp [alphaRejects400, beta_ne_alpha]

/-- A first-attempt 400 stops `executeWithRetry` immediately. -/
theorem executeWithRetry_const400 :
    executeWithRetry (fun _ => (Except.error err400 : Except JsError Resp)) 3 1000 =
      { result := .error err400, calls := 1, delays := [], errors := [.num 400] } := by
  simp [executeWithRetry, executeWithRetryGo, classify, err400]

/-- A first-attempt success stops `executeWithRetry` immediately. -/
theorem executeWithRetry_constOk :
    executeWithRetry (fun _ => (Except.ok respOk : Except JsError Resp)) 3 1000 =
      { result := .ok respOk, calls := 1, delays := [], errors := [] } := by
  simp [executeWithRetry, executeWithRetryGo]

/-- C3 counterexample.  The claim says a 400-classified failure propagates
immediately with no fallback to any other provider.  With `alpha` rejecting
every attempt with HTTP 400 and `beta` healthy (fallback enabled), the
`chat` call instead *succeeds via fallback*: `alpha` is called exactly once,
then `beta` is attempted and its response is returned — the 400 error never
reaches the caller. -/
theorem http400_still_falls_back :
    (chat defaultRoutingConfig alphaRejects400 7 "t" 5
        [initInst cfgAlpha, initInst cfgBeta] 0 10 none).outcome
      = .ok "beta" respOk
  ∧ (chat defaultRoutingConfig alphaRejects400 7 "t" 5
        [initInst cfgAlpha, initInst cfgBeta] 0 10 none).attempted
      = ["alpha", "beta"]
  ∧ (chat defaultRoutingConfig alphaRejects400 7 "t" 5
        [initInst cfgAlpha, initInst cfgBeta] 0 10 none).events
      = [.providerCall "alpha" 0, .providerCall "beta" 0] := by
  rw [chat, selectProvider_alphaBeta]
  norm_num [attemptWithProvider, lookupInst, mapMetrics, alphaRejects400_alpha,
    alphaRejects400_beta, executeWithRetry_const400, executeWithRetry_constOk,
    callEvents, cfgAlpha, cfgBeta, defaultRoutingConfig, initInst, initMetrics,
    beta_ne_alpha, alpha_ne_beta, List.range_succ]

/-- C3 amended.  A 400-classified failure results in exactly one attempt
against that provider — no retry, no back-off sleep (first conjunct, for any
closure whose first attempt fails with a 400 classification) — but fallback
to other enabled providers still happens as for any other failure; the 400
propagates to the caller only when no other enabled provider exists (second
conjunct: the same failing provider alone in the registry). -/
theorem http400_single_attempt_then_fallback :
    (∀ (fn : Nat → Except JsError Resp) (e : JsError),
      fn 0 = .error e → classify e = .num 400 →
      executeWithRetry fn 3 1000 =
        { result := .error e, calls := 1, delays := [], errors := [.num 400] })
  ∧ (chat defaultRoutingConfig alphaRejects400 7 "t" 5
        [initInst cfgAlpha] 0 10 none).outcome = .err err400 := by
  constructor
  · intro fn e h1 h2
    simp [executeWithRetry, executeWithRetryGo, h1, h2]
  · rw [chat]
    norm_num [selectProvider, sortHead, isEligible, rateLimitUsage, cmpJS,
      baseScore, fullScore, successRate, cfgAlpha, defaultRoutingConfig,
      initInst, initMetrics, toPEntry, List.filter, attemptWithProvider,
      lookupInst, mapMetrics, alphaRejects400_alpha, executeWithRetry_const400]

/-- Witness for `http400_single_attempt_then_fallback`: the constant-400
closure satisfies the hypotheses at attempt 0. -/
theorem http400_single_attempt_then_fallback_witness :
    executeWithRetry (fun _ => (Except.error err400 : Except JsError Resp)) 3 1000 =
      { result := .error err400, calls := 1, delays := [], errors := [.num 400] } :=
  http400_single_attempt_then_fallback.1 (fun _ => Except.error err400) err400
    rfl rfl

/-- `mapMetrics` never touches a provider's request queue. -/
theorem mapMetrics_requestQueue (insts : List PInst) (name : String)
    (f : ProviderMetrics → ProviderMetrics) :
    (mapMetrics insts name f).map (fun i => i.requestQueue)
      = insts.map (fun i => i.requestQueue) := by
  simp only [mapMetrics, List.map_map]
  apply List.map_congr_left
  intro i _
  by_cases h : i.name = name <;> simp [h]

/-- The fallback loop never touches any provider's request queue: whatever
the fuel, behavior and starting state, the queues after `attemptWithProvider`
are the queues before it. -/
theorem attemptWithProvider_requestQueues (rc : RoutingConfig)
    (behavior : String → Nat → Except JsError Resp) (rt : ℚ) (now : String) :
    ∀ (fuel : Nat) (insts : List PInst) (attempted : List String)
      (events : List ChatEv) (name : String),
      ((attemptWithProvider rc behavior rt now fuel insts attempted events
          name).insts).map (fun i => i.requestQueue)
        = insts.map (fun i => i.requestQueue) := by
  intro fuel
  induction fuel with
  | zero => intro _ _ _ _; rfl
  | succ n ih =>
    intro insts attempted events name
    rw [attemptWithProvider]
    cases h : lookupInst insts name with
    | none => simp
    | some inst =>
      simp only
      cases hr : (executeWithRetry (behavior name) 3 1000).result with
      | ok resp => simp [hr, mapMetrics_requestQueue]
      | error e =>
        simp only [hr]
        by_cases hc : rc.enableFallback = true
            ∧ (mapMetrics (mapMetrics insts name
                  (fun m => (executeWithRetry (behavior name) 3 1000).errors.foldl
                    recordError m)) name
                (fun m => updateMetrics inst.cfg m false rt none now)).length > 1
        · simp only [hc, if_pos]
          cases hh : ((mapMetrics (mapMetrics insts name
                (fun m => (executeWithRetry (behavior name) 3 1000).errors.foldl
                  recordError m)) name
              (fun m => updateMetrics inst.cfg m false rt none now)).filter
                (fun i => i.name ≠ name ∧ i.cfg.enabled)).head? with
          | none => simp [hh, mapMetrics_requestQueue]
          | some nxt => simp [hh, ih, mapMetrics_requestQueue]
        · simp [hc, mapMetrics_requestQueue]

/-- `chat` never touches any provider's request queue. -/
theorem chat_requestQueues (rc : RoutingConfig)
    (behavior : String → Nat → Except JsError Resp) (rt : ℚ) (now : String)
    (fuel : Nat) (insts : List PInst) (taskComplexity contextSize : ℚ)
    (preferredProvider : Option String) :
    ((chat rc behavior rt now fuel insts taskComplexity contextSize
        preferredProvider).insts).map (fun i => i.requestQueue)
      = insts.map (fun i => i.requestQueue) := by
  rw [chat]
  cases h : selectProvider (insts.map toPEntry) rc taskComplexity contextSize
      preferredProvider with
  | none => rfl
  | some name =>
      exact attemptWithProvider_requestQueues rc behavior rt now fuel insts [] [] name

/-- `betaSucceeds` at any provider is the constant-success closure. -/
theorem betaSucceeds_app (name : String) :
    betaSucceeds name = fun _ => Except.ok respOk := rfl

/-- Routing over the single-provider `beta` registry picks `beta`. -/
theorem selectProvider_betaOnly :
    selectProvider ([initInst cfgBeta].map toPEntry)
      defaultRoutingConfig 0 10 none = some "beta" := by
  norm_num [selectProvider, sortHead, isEligible, rateLimitUsage, cmpJS,
    baseScore, fullScore, successRate, cfgBeta, defaultRoutingConfig,
    initInst, initMetrics, toPEntry, List.filter]

/-- C2 counterexample.  The claim says every provider call made on behalf of
`chat()` is enqueued on that provider's FIFO queue and executed by the
per-provider drain loop with 100 ms pacing.  In this single-provider run,
`chat` performs a provider call (the `providerCall` event), yet the
provider's `requestQueue` — empty at start — is never written (it is still
the only queue and still empty in the final state, and by
`attemptWithProvider_requestQueues` no intermediate state ever differs), and
no 100 ms pacing sleep occurs: `chat` invokes `executeWithRetry` directly
(line 404) and never calls `queueRequest`. -/
theorem chat_calls_provider_without_enqueuing :
    (chat defaultRoutingConfig betaSucceeds 7 "t" 5 [initInst cfgBeta]
        0 10 none).events = [.providerCall "beta" 0]
  ∧ (chat defaultRoutingConfig betaSucceeds 7 "t" 5 [initInst cfgBeta]
        0 10 none).insts.map (fun i => i.requestQueue) = [[]]
  ∧ (chat defaultRoutingConfig betaSucceeds 7 "t" 5 [initInst cfgBeta]
        0 10 none).outcome = .ok "beta" respOk := by
  rw [chat, selectProvider_betaOnly]
  norm_num [attemptWithProvider, lookupInst, mapMetrics, betaSucceeds_app,
    executeWithRetry_constOk, callEvents, cfgBeta, defaultRoutingConfig,
    initInst, initMetrics, List.range_succ]

/-- C2 amended.  `queueRequest` appends work at the tail of the provider's
FIFO queue; the `processQueue` drain loop runs queued items one at a time in
FIFO order, with one 100 ms pacing sleep after each processed item.  But
`chat()` does not route provider calls through this machinery: it calls
`executeWithRetry` directly, and no `chat` execution ever reads or writes
any provider's request queue. -/
theorem queue_fifo_paced_but_chat_bypasses :
    (∀ (q : List Nat) (x : Nat), queueRequest q x = (q ++ [x], .enqueued x))
  ∧ (∀ q : List Nat, (processQueueTrace q).filterMap ranItem = q)
  ∧ (∀ q : List Nat, (processQueueTrace q).countP isPace100 = q.length)
  ∧ (∀ (rc : RoutingConfig) (behavior : String → Nat → Except JsError Resp)
      (rt : ℚ) (now : String) (fuel : Nat) (insts : List PInst)
      (taskComplexity contextSize : ℚ) (preferredProvider : Option String),
      ((chat rc behavior rt now fuel insts taskComplexity contextSize
          preferredProvider).insts).map (fun i => i.requestQueue)
        = insts.map (fun i => i.requestQueue)) := by
  refine ⟨fun _ _ => rfl, ?_, ?_, ?_⟩
  · intro q
    induction q with
    | nil => rfl
    | cons x rest ih => simp [processQueueTrace, ranItem, ih]
  · intro q
    induction q with
    | nil => rfl
    | cons x rest ih => simp [processQueueTrace, isPace100, List.countP_cons, ih]
  · intro rc behavior rt now fuel insts tc cs pref
    exact chat_requestQueues rc behavior rt now fuel insts tc cs pref

/-- C5 counterexample.  The claim requires a candidate's rate-limit-remaining
fraction to be ≥ `1 − rateLimitThreshold` (= 0.8 with the default 0.2).  The
code's filter (lines 174–180) keeps a provider whenever its *usage*
`1 − remaining` is ≤ `1 − rateLimitThreshold`, i.e. whenever
`remaining ≥ rateLimitThreshold` (= 0.2).  A provider with remaining = 0.5
is kept by the code but excluded by the claim's candidate set. -/
theorem rate_limit_filter_mismatch_at_half :
    isEligible defaultRoutingConfig 10 pHalf = true
  ∧ claimEligible defaultRoutingConfig 10 pHalf = false
  ∧ [pHalf].filter (isEligible defaultRoutingConfig 10) = [pHalf]
  ∧ [pHalf].filter (claimEligible defaultRoutingConfig 10) = [] := by
  refine ⟨?_, ?_, ?_, ?_⟩ <;>
    norm_num [isEligible, claimEligible, rateLimitUsage, pHalf, initMetrics,
      defaultRoutingConfig, List.filter]

/-- C5 amended.  A provider is in the router's candidate set iff it is
enabled, its context window covers the context-size estimate, and its
rate-limit usage `1 − remaining` (0 when unknown) is at most
`1 − rateLimitThreshold` — equivalently, its known remaining fraction is at
least `rateLimitThreshold` (so ≥ 0.2 by default), and an unknown fraction
passes whenever `rateLimitThreshold ≤ 1`. -/
theorem candidate_set_characterization (rc : RoutingConfig) (contextSize : ℚ)
    (l : List PEntry) (p : PEntry) :
    p ∈ l.filter (isEligible rc contextSize) ↔
      p ∈ l ∧ p.cfg.enabled = true ∧ contextSize ≤ p.cfg.contextWindow ∧
        (match p.metrics.rateLimitRemaining with
         | some r => rc.rateLimitThreshold ≤ r
         | none => rc.rateLimitThreshold ≤ 1) := by
  simp only [List.mem_filter, isEligible, Bool.and_eq_true, decide_eq_true_eq,
    rateLimitUsage]
  cases h : p.metrics.rateLimitRemaining with
  | none =>
      simp only [h]
      constructor
      · rintro ⟨hm, ⟨he, hcw⟩, hr⟩
        exact ⟨hm, he, hcw, by linarith⟩
      · rintro ⟨hm, he, hcw, hr⟩
        exact ⟨hm, ⟨he, hcw⟩, by linarith⟩
  | some r =>
      simp only [h]
      constructor
      · rintro ⟨hm, ⟨he, hcw⟩, hr⟩
        exact ⟨hm, he, hcw, by linarith⟩
      · rintro ⟨hm, he, hcw, hr⟩
        exact ⟨hm, ⟨he, hcw⟩, by linarith⟩

/-- When the pairwise comparator agrees with a per-candidate score `f` on
every pair drawn from a class `P`, the stable-sort head over a list of
`P`-candidates is `List.argmax f` (earliest candidate attaining the maximal
score). -/
theorem sortHead_eq_argmax_of (rc : RoutingConfig) (taskComplexity contextSize : ℚ)
    (f : PEntry → ℚ) (P : PEntry → Prop)
    (hf : ∀ a b, P a → P b →
      (cmpJS rc taskComplexity contextSize a b > 0 ↔ f a < f b)) :
    ∀ l : List PEntry, (∀ p ∈ l, P p) →
      sortHead rc taskComplexity contextSize l = l.argmax f := by
  intro l hl
  suffices h : ∀ acc : Option PEntry, (∀ p ∈ l, P p) → (∀ a ∈ acc, P a) →
      l.foldl
        (fun best x =>
          match best with
          | none => some x
          | some c =>
              if cmpJS rc taskComplexity contextSize c x > 0 then some x
              else some c)
        acc
      = l.foldl (List.argAux fun b c => f c < f b) acc by
    simpa [sortHead, List.argmax] using h none hl (by simp)
  clear hl
  induction l with
  | nil => intro acc _ _; rfl
  | cons x rest ih =>
    intro acc hl hacc
    have hrest : ∀ p ∈ rest, P p := fun p hp => hl p (by simp [hp])
    have hx : P x := hl x (by simp)
    cases acc with
    | none =>
      simp only [List.foldl_cons]
      exact ih (some x) hrest (by intro a ha; simp at ha; subst ha; exact hx)
    | some c =>
      have hc : P c := hacc c rfl
      simp only [List.foldl_cons, List.argAux]
      by_cases hlt : cmpJS rc taskComplexity contextSize c x > 0
      · rw [if_pos hlt, if_pos ((hf c x hc hx).mp hlt)]
        exact ih (some x) hrest (by intro a ha; simp at ha; subst ha; exact hx)
      · rw [if_neg hlt, if_neg (fun hcon => hlt ((hf c x hc hx).mpr hcon))]
        exact ih (some c) hrest (by intro a ha; simp at ha; subst ha; exact hc)

/-- C6 counterexample.  The claim says the router maximizes a per-candidate
score in which the `(1/avgLatencyMs)*0.5` term is dropped only for a
candidate whose own `avgLatencyMs` is 0.  In the code the term is pairwise:
it is added only when *both* compared candidates have positive average
latency (line 216).  With `delta` (never called, average 0) listed before
`epsilon` (one successful call, average 100 ms) and otherwise equal scores,
the code compares them without latency terms — a tie — and keeps `delta`,
while the claim's score gives `epsilon` an extra `0.005` and would select
it. -/
theorem latency_term_mismatch_on_mixed_pair :
    sortHead defaultRoutingConfig 0 10 [candFresh, candSeasoned]
      = some candFresh
  ∧ [candFresh, candSeasoned].argmax (claimScore defaultRoutingConfig 0 10)
      = some candSeasoned
  ∧ candFresh ≠ candSeasoned := by
  refine ⟨?_, ?_, ?_⟩
  · norm_num [sortHead, cmpJS, baseScore, fullScore, successRate, candFresh,
      candSeasoned, initMetrics, defaultRoutingConfig]
  · norm_num [List.argmax, List.argAux, claimScore, baseScore, successRate,
      candFresh, candSeasoned, initMetrics, defaultRoutingConfig]
  · intro h
    have hn := congrArg PEntry.name h
    simp [candFresh, candSeasoned] at hn

/-- C6 amended.  The latency term is pairwise (included only when both
compared candidates have positive average latency), so the comparator is
induced by a single per-candidate score exactly on latency-uniform candidate
sets: when every candidate's average latency is 0 the router returns the
earliest candidate maximizing `priority + bonusA + bonusB + successRate*2`,
and when every candidate's average latency is positive it returns the
earliest candidate maximizing that score plus `(1/avgLatencyMs)*0.5`
(`List.argmax` breaks ties by list — i.e. registry — order). -/
theorem router_is_argmax_on_uniform_latency (rc : RoutingConfig)
    (taskComplexity contextSize : ℚ) (l : List PEntry) :
    ((∀ p ∈ l, p.metrics.averageResponseTime = 0) →
      sortHead rc taskComplexity contextSize l
        = l.argmax (baseScore rc taskComplexity contextSize))
  ∧ ((∀ p ∈ l, 0 < p.metrics.averageResponseTime) →
      sortHead rc taskComplexity contextSize l
        = l.argmax (fullScore rc taskComplexity contextSize)) := by
  constructor
  · intro h
    refine sortHead_eq_argmax_of rc taskComplexity contextSize _
      (fun p => p.metrics.averageResponseTime = 0) ?_ l h
    intro a b ha hb
    rw [cmpJS, if_neg (by simp [ha])]
    constructor <;> intro <;> linarith
  · intro h
    refine sortHead_eq_argmax_of rc taskComplexity contextSize _
      (fun p => 0 < p.metrics.averageResponseTime) ?_ l h
    intro a b ha hb
    rw [cmpJS, if_pos ⟨ha, hb⟩]
    constructor <;> intro <;> linarith

/-- Witness for `router_is_argmax_on_uniform_latency`: the all-zero-latency
hypothesis at the singleton `delta` list and the all-positive-latency
hypothesis at the singleton `epsilon` list. -/
theorem router_is_argmax_on_uniform_latency_witness :
    sortHead defaultRoutingConfig 0 10 [candFresh]
      = [candFresh].argmax (baseScore defaultRoutingConfig 0 10)
  ∧ sortHead defaultRoutingConfig 0 10 [candSeasoned]
      = [candSeasoned].argmax (fullScore defaultRoutingConfig 0 10) :=
  ⟨(router_is_argmax_on_uniform_latency defaultRoutingConfig 0 10 [candFresh]).1
      (by intro p hp; simp at hp; subst hp; simp [candFresh, initMetrics]),
   (router_is_argmax_on_uniform_latency defaultRoutingConfig 0 10 [candSeasoned]).2
      (by intro p hp; simp at hp; subst hp; norm_num [candSeasoned, initMetrics])⟩

/-- C7.  `updateMetrics` maintains the running average latency as a true
arithmetic mean: the new average is
`(oldAvg * (n-1) + latencyMs) / n` with `n` the post-increment
`totalRequests` — equivalently `(oldAvg * oldTotal + latencyMs) /
(oldTotal + 1)` (first conjunct, for every starting state); consequently,
starting from a fresh provider, after a first recorded call of latency `L1`
the average is `L1`, and after a second of latency `L2` it is
`(L1 + L2) / 2` (second conjunct). -/
theorem running_average_is_true_mean :
    (∀ (cfg : ProviderConfig) (m : ProviderMetrics) (success : Bool)
        (responseTime : ℚ) (usage : Option Usage) (now : String),
      (updateMetrics cfg m success responseTime usage now).averageResponseTime
        = (m.averageResponseTime * (m.totalRequests : ℚ) + responseTime)
            / ((m.totalRequests : ℚ) + 1))
  ∧ (∀ (cfg : ProviderConfig) (name : String) (s1 s2 : Bool)
        (u1 u2 : Option Usage) (n1 n2 : String) (L1 L2 : ℚ),
      (updateMetrics cfg (initMetrics name) s1 L1 u1 n1).averageResponseTime
        = L1
      ∧ (updateMetrics cfg (updateMetrics cfg (initMetrics name) s1 L1 u1 n1)
          s2 L2 u2 n2).averageResponseTime = (L1 + L2) / 2) := by
  constructor
  · intro cfg m success responseTime usage now
    simp only [updateMetrics]
    push_cast
    ring_nf
  · intro cfg name s1 s2 u1 u2 n1 n2 L1 L2
    constructor
    · norm_num [updateMetrics, initMetrics]
    · norm_num [updateMetrics, initMetrics]

/-- C8.  When the profile declares costs-per-1000-tokens, a recorded attempt
carrying usage increases the accumulated cost by exactly
`inputTokens/1000 * costInput + outputTokens/1000 * costOutput` (first
conjunct); in particular a completed call with 1000 input and 500 output
tokens under costs `{input: 0.01, output: 0.03}` increases it by exactly
0.025 (second conjunct, from a fresh provider whose accumulated cost is
0). -/
theorem cost_accumulation :
    (∀ (cfg : ProviderConfig) (m : ProviderMetrics) (success : Bool)
        (responseTime : ℚ) (u : Usage) (now : String) (ci co : ℚ),
      cfg.costPer1kTokens = some { input := ci, output := co } →
      (updateMetrics cfg m success responseTime (some u) now).totalCost
        = m.totalCost + ((u.inputTokens : ℚ) / 1000) * ci
            + ((u.outputTokens : ℚ) / 1000) * co)
  ∧ (updateMetrics cfgPriced (initMetrics "alpha") true 5
      (some { inputTokens := 1000, outputTokens := 500, totalTokens := 1500 })
      "t").totalCost = 0.025 := by
  constructor
  · intro cfg m success responseTime u now ci co h
    simp [updateMetrics, h]
  · norm_num [updateMetrics, initMetrics, cfgPriced]

/-- Witness for `cost_accumulation`: the priced `alpha` profile declares
`{input: 0.01, output: 0.03}`, discharging the hypothesis by `rfl`. -/
theorem cost_accumulation_witness :
    (updateMetrics cfgPriced (initMetrics "alpha") true 5
      (some { inputTokens := 1000, outputTokens := 500, totalTokens := 1500 })
      "t").totalCost
      = (initMetrics "alpha").totalCost
          + (((1000 : Nat) : ℚ) / 1000) * 0.01 + (((500 : Nat) : ℚ) / 1000) * 0.03 :=
  cost_accumulation.1 cfgPriced (initMetrics "alpha") true 5
    { inputTokens := 1000, outputTokens := 500, totalTokens := 1500 } "t"
    0.01 0.03 rfl

/-- Bumping one error classification never lowers any classification's
count. -/
theorem errCount_le_bumpErrorCount (c code : ErrCode) :
    ∀ l : List (ErrCode × Nat), errCount c l ≤ errCount c (bumpErrorCount code l) := by
  intro l
  induction l with
  | nil =>
    simp only [errCount, bumpErrorCount]
    split <;> omega
  | cons hd tl ih =>
    obtain ⟨c', k⟩ := hd
    by_cases h1 : c' = code
    · subst h1
      simp only [bumpErrorCount, if_pos rfl, errCount]
      split <;> omega
    · simp only [bumpErrorCount, if_neg h1, errCount]
      split
      · omega
      · exact ih

/-- The success/failure split of `updateMetrics` preserves the counter
identity. -/
theorem applyOp_preserves_inv (cfg : ProviderConfig) (m : ProviderMetrics)
    (op : MetricsOp)
    (h : m.successfulRequests + m.failedRequests = m.totalRequests) :
    (applyOp cfg m op).successfulRequests + (applyOp cfg m op).failedRequests
      = (applyOp cfg m op).totalRequests := by
  cases op with
  | recordAttempt success responseTime usage now =>
    cases success <;> simp [applyOp, updateMetrics] <;> omega
  | bumpError code => simpa [applyOp, recordError] using h

/-- C9.  First conjunct: after any sequence of metric mutations from the
freshly initialized record, `successfulRequests + failedRequests =
totalRequests` (every reachable state is a prefix image, so the identity
holds at all times).  Second conjunct: every single mutation — a terminal
`updateMetrics` or an `errorCounts` bump — leaves `totalRequests`,
`successfulRequests`, `failedRequests`, the three token counters, the
accumulated cost (given the declared per-1000-token costs are non-negative)
and every per-classification error count no smaller than before: the
counters are monotonically non-decreasing and are never reset. -/
theorem counters_consistent_and_monotone (cfg : ProviderConfig)
    (hcost : costsNonneg cfg) :
    (∀ (name : String) (ops : List MetricsOp),
      (applyOps cfg (initMetrics name) ops).successfulRequests
          + (applyOps cfg (initMetrics name) ops).failedRequests
        = (applyOps cfg (initMetrics name) ops).totalRequests)
  ∧ (∀ (m : ProviderMetrics) (op : MetricsOp),
      m.totalRequests ≤ (applyOp cfg m op).totalRequests
      ∧ m.successfulRequests ≤ (applyOp cfg m op).successfulRequests
      ∧ m.failedRequests ≤ (applyOp cfg m op).failedRequests
      ∧ m.totalInputTokens ≤ (applyOp cfg m op).totalInputTokens
      ∧ m.totalOutputTokens ≤ (applyOp cfg m op).totalOutputTokens
      ∧ m.totalTokensUsed ≤ (applyOp cfg m op).totalTokensUsed
      ∧ m.totalCost ≤ (applyOp cfg m op).totalCost
      ∧ ∀ c : ErrCode,
          errCount c m.errorCounts ≤ errCount c (applyOp cfg m op).errorCounts) := by
  constructor
  · intro name ops
    suffices h : ∀ (m : ProviderMetrics),
        m.successfulRequests + m.failedRequests = m.totalRequests →
        (applyOps cfg m ops).successfulRequests
            + (applyOps cfg m ops).failedRequests
          = (applyOps cfg m ops).totalRequests by
      exact h (initMetrics name) (by simp [initMetrics])
    induction ops with
    | nil => intro m hm; exact hm
    | cons op rest ih =>
      intro m hm
      exact ih (applyOp cfg m op) (applyOp_preserves_inv cfg m op hm)
  · intro m op
    cases op with
    | recordAttempt success responseTime usage now =>
      refine ⟨?_, ?_, ?_, ?_, ?_, ?_, ?_, ?_⟩
      · cases success <;> simp [applyOp, updateMetrics]
      · cases success <;> simp [applyOp, updateMetrics]
      · cases success <;> simp [applyOp, updateMetrics]
      · cases usage <;> simp [applyOp, updateMetrics]
      · cases usage <;> simp [applyOp, updateMetrics]
      · cases usage <;> simp [applyOp, updateMetrics]
      · cases usage with
        | none => simp [applyOp, updateMetrics]
        | some u =>
          cases hc : cfg.costPer1kTokens with
          | none => simp [applyOp, updateMetrics, hc]
          | some c =>
            have hnn : 0 ≤ c.input ∧ 0 ≤ c.output := by
              simpa [costsNonneg, hc] using hcost
            simp only [applyOp, updateMetrics, hc]
            have h1 : 0 ≤ ((u.inputTokens : ℚ) / 1000) * c.input :=
              mul_nonneg (by positivity) hnn.1
            have h2 : 0 ≤ ((u.outputTokens : ℚ) / 1000) * c.output :=
              mul_nonneg (by positivity) hnn.2
            linarith
      · intro c; simp [applyOp, updateMetrics]
    | bumpError code =>
      refine ⟨le_refl _, le_refl _, le_refl _, le_refl _, le_refl _, le_refl _,
        le_refl _, ?_⟩
      intro c
      exact errCount_le_bumpErrorCount c code m.errorCounts

/-- Witness for `counters_consistent_and_monotone`: the priced `alpha`
profile has non-negative declared costs, and a first failed attempt from the
fresh record keeps the counter identity. -/
theorem counters_consistent_and_monotone_witness :
    (applyOps cfgPriced (initMetrics "alpha")
        [.recordAttempt false 5 none "t"]).successfulRequests
      + (applyOps cfgPriced (initMetrics "alpha")
          [.recordAttempt false 5 none "t"]).failedRequests
      = (applyOps cfgPriced (initMetrics "alpha")
          [.recordAttempt false 5 none "t"]).totalRequests :=
  (counters_consistent_and_monotone cfgPriced
      (by norm_num [costsNonneg, cfgPriced])).1
    "alpha" [.recordAttempt false 5 none "t"]

/-- C10.  First conjunct: the failure-path metrics update — `updateMetrics`
with `success = false` and no usage, exactly the call made at line 434 —
leaves the token counters, the accumulated cost and `successfulRequests`
unchanged, and changes only `totalRequests` and `failedRequests` (each +1)
besides the average latency and `lastUsed`.  Second conjunct: a whole
logical `chat` call that fails (single provider, every attempt HTTP 503)
ends with all token counters and the cost still 0, no successful request,
and exactly one total = one failed request recorded. -/
theorem failed_call_keeps_tokens_and_cost :
    (∀ (cfg : ProviderConfig) (m : ProviderMetrics) (rt : ℚ) (now : String),
      (updateMetrics cfg m false rt none now).totalInputTokens
          = m.totalInputTokens
      ∧ (updateMetrics cfg m false rt none now).totalOutputTokens
          = m.totalOutputTokens
      ∧ (updateMetrics cfg m false rt none now).totalTokensUsed
          = m.totalTokensUsed
      ∧ (updateMetrics cfg m false rt none now).totalCost = m.totalCost
      ∧ (updateMetrics cfg m false rt none now).successfulRequests
          = m.successfulRequests
      ∧ (updateMetrics cfg m false rt none now).totalRequests
          = m.totalRequests + 1
      ∧ (updateMetrics cfg m false rt none now).failedRequests
          = m.failedRequests + 1)
  ∧ ((chat defaultRoutingConfig alwaysFail503 7 "t" 5 [initInst cfgAlpha]
        0 10 none).outcome = .err err503
    ∧ (chat defaultRoutingConfig alwaysFail503 7 "t" 5 [initInst cfgAlpha]
        0 10 none).insts.map
          (fun i => (i.metrics.totalInputTokens, i.metrics.totalOutputTokens,
            i.metrics.totalTokensUsed)) = [(0, 0, 0)]
    ∧ (chat defaultRoutingConfig alwaysFail503 7 "t" 5 [initInst cfgAlpha]
        0 10 none).insts.map (fun i => i.metrics.totalCost) = [0]
    ∧ (chat defaultRoutingConfig alwaysFail503 7 "t" 5 [initInst cfgAlpha]
        0 10 none).insts.map
          (fun i => (i.metrics.successfulRequests, i.metrics.totalRequests,
            i.metrics.failedRequests)) = [(0, 1, 1)]) := by
  constructor
  · intro cfg m rt now
    refine ⟨?_, ?_, ?_, ?_, ?_, ?_, ?_⟩ <;> simp [updateMetrics]
  · rw [chat]
    norm_num [selectProvider, sortHead, isEligible, rateLimitUsage, cmpJS,
      baseScore, fullScore, successRate, toPEntry, List.filter,
      attemptWithProvider, lookupInst, mapMetrics, alwaysFail503_app,
      executeWithRetry_const503, recordError, bumpErrorCount, updateMetrics,
      cfgAlpha, defaultRoutingConfig, initInst, initMetrics]

end AhuRouter

